import Mathlib

/-!
Verification of the secure file-system adapter (secure-fs): configuration
manager, concurrency-limiter bookkeeping, retry engine and the mediated
operation surface, shallowly embedded from the TypeScript source.
-/

set_option linter.unusedVariables false

/-- Configuration for file operation throttling (interface ThrottleConfig). -/
structure ThrottleConfig where
  maxConcurrency : Nat
  maxRetries : Nat
  baseDelay : Nat
  maxDelay : Nat
deriving DecidableEq, Repr

/-- `DEFAULT_CONFIG` from the source. -/
def DEFAULT_CONFIG : ThrottleConfig :=
  { maxConcurrency := 100, maxRetries := 3, baseDelay := 100, maxDelay := 5000 }

/-- `Partial<ThrottleConfig>`: each field either absent (`none`) or supplied
with a defined value (`some v`). -/
structure ConfigPatch where
  maxConcurrency : Option Nat := none
  maxRetries : Option Nat := none
  baseDelay : Option Nat := none
  maxDelay : Option Nat := none
deriving DecidableEq, Repr

/-- The JavaScript object-spread merge `\x7b ...config, ...newConfig \x7d`:
a supplied field overrides, an absent field keeps the prior value. -/
def mergeConfig (config : ThrottleConfig) (newConfig : ConfigPatch) : ThrottleConfig :=
  { maxConcurrency := newConfig.maxConcurrency.getD config.maxConcurrency
    maxRetries := newConfig.maxRetries.getD config.maxRetries
    baseDelay := newConfig.baseDelay.getD config.baseDelay
    maxDelay := newConfig.maxDelay.getD config.maxDelay }

/-- Observable state of a p-limit limiter instance: its capacity and the
`activeCount` / `pendingCount` counters. -/
structure Limiter where
  capacity : Nat
  activeCount : Nat
  pendingCount : Nat
deriving DecidableEq, Repr

/-- Modelled from the spec: the external `p-limit` library (not part of this
repository) constructs a fresh counting-semaphore limiter of the given
capacity with no active and no pending operations. -/
def pLimit (concurrency : Nat) : Limiter :=
  { capacity := concurrency, activeCount := 0, pendingCount := 0 }

/-- The module-level mutable state of secure-fs: the live `config` and the
live `fsLimit` limiter instance. -/
structure FSState where
  config : ThrottleConfig
  fsLimit : Limiter
deriving DecidableEq, Repr

/-- Module initialisation:
`let config = \x7b ...DEFAULT_CONFIG \x7d; let fsLimit = pLimit(config.maxConcurrency)`. -/
def initialState : FSState :=
  { config := DEFAULT_CONFIG, fsLimit := pLimit DEFAULT_CONFIG.maxConcurrency }

/-- The error message thrown by `configureThrottling` on a reconfiguration
conflict. -/
def reconfigErrorMsg (l : Limiter) : String :=
  "[SecureFS] Cannot change maxConcurrency while operations are in flight. Active: "
    ++ toString l.activeCount ++ ", Pending: " ++ toString l.pendingCount

/-- `configureThrottling(newConfig)`: if a supplied `maxConcurrency` differs
from the current one, it throws when operations are in flight and otherwise
swaps in a fresh limiter; finally the patch is spread-merged into the live
config. The returned pair is (thrown error or unit, module state after the
call). -/
def configureThrottling (s : FSState) (newConfig : ConfigPatch) :
    Except String Unit × FSState :=
  match newConfig.maxConcurrency with
  | some newConcurrency =>
    if newConcurrency = s.config.maxConcurrency then
      (Except.ok (), { config := mergeConfig s.config newConfig, fsLimit := s.fsLimit })
    else if 0 < s.fsLimit.activeCount ∨ 0 < s.fsLimit.pendingCount then
      (Except.error (reconfigErrorMsg s.fsLimit), s)
    else
      (Except.ok (),
        { config := mergeConfig s.config newConfig, fsLimit := pLimit newConcurrency })
  | none =>
    (Except.ok (), { config := mergeConfig s.config newConfig, fsLimit := s.fsLimit })

/-- `getThrottlingConfig()` returns a copy `\x7b ...config \x7d` of the live
config; in the pure model the snapshot value itself. -/
def getThrottlingConfig (s : FSState) : ThrottleConfig := s.config

/-- `getPendingOperations()` from the source. -/
def getPendingOperations (s : FSState) : Nat := s.fsLimit.pendingCount

/-- `getActiveOperations()` from the source. -/
def getActiveOperations (s : FSState) : Nat := s.fsLimit.activeCount

/-- A JavaScript error value as the retry engine observes it: it may or may
not carry a string `code` property. -/
structure JsError where
  code : Option String
  msg : String := ""
deriving DecidableEq, Repr

/-- `FILE_DESCRIPTOR_ERROR_CODES = new Set(['ENFILE', 'EMFILE'])`. -/
def FILE_DESCRIPTOR_ERROR_CODES : List String := ["ENFILE", "EMFILE"]

/-- `isFileDescriptorError`: true iff the error is an object carrying a
`code` property whose value is one of the descriptor-exhaustion codes. -/
def isFileDescriptorError (error : JsError) : Bool :=
  match error.code with
  | some c => FILE_DESCRIPTOR_ERROR_CODES.contains c
  | none => false

/-- `calculateDelay(attempt)`: exponential backoff with jitter, capped at
`maxDelay`. The `Math.random() * baseDelay` jitter is passed in explicitly as
a rational in `[0, baseDelay)`. -/
def calculateDelay (config : ThrottleConfig) (attempt : Nat) (jitter : ℚ) : ℚ :=
  min ((config.baseDelay : ℚ) * 2 ^ attempt + jitter) (config.maxDelay : ℚ)

/-- Observable events of one mediated call, in order of occurrence:
a path validation by the Access Gate, consumption of a concurrency slot
(submission to `fsLimit`), an invocation of an underlying OS primitive with
the path arguments it receives, and a retry notification (the
`console.warn` in `executeWithRetry`). -/
inductive Effect where
  | validate (raw : String)
  | slotConsumed
  | osCall (prim : String) (paths : List String)
  | retryNotify (operationName : String) (attempt : Nat)
deriving DecidableEq, Repr

/-- Is the effect an OS-primitive invocation? -/
def isOsCall : Effect → Bool
  | .osCall _ _ => true
  | _ => false

/-- Is the effect a retry notification? -/
def isRetryNotify : Effect → Bool
  | .retryNotify _ _ => true
  | _ => false

/-- Is the effect anything beyond a pure path validation (slot consumption,
OS call, or retry-engine notification)? -/
def isIOEffect : Effect → Bool
  | .validate _ => false
  | _ => true

/-- Number of attempts made = number of OS-primitive invocations in the
trace. -/
def numAttempts (tr : List Effect) : Nat := tr.countP isOsCall

/-- Number of retry notifications emitted in the trace. -/
def numNotifications (tr : List Effect) : Nat := tr.countP isRetryNotify

/-- Every OS call in the trace passes exactly the path list `ps`. -/
def osCallsUseOnly (tr : List Effect) (ps : List String) : Bool :=
  tr.all fun e =>
    match e with
    | .osCall _ qs => decide (qs = ps)
    | _ => true

/-- The attempt loop of `executeWithRetry`, from attempt index `attempt` up
to `maxRetries`: run the operation; on success return; on failure retry
(after a notification) exactly when the error is a file-descriptor error and
`attempt < maxRetries`, otherwise rethrow. The outcome of the underlying
operation on each attempt is supplied by the oracle `op`; the trace records
each OS invocation (`prim` applied to `ps`) and each retry notification. -/
def retryLoop (maxRetries : Nat) (op : Nat → Except JsError T)
    (operationName : String) (prim : String) (ps : List String)
    (attempt : Nat) : Except JsError T × List Effect :=
  match op attempt with
  | .ok v => (.ok v, [.osCall prim ps])
  | .error e =>
    if isFileDescriptorError e = true ∧ attempt < maxRetries then
      let r := retryLoop maxRetries op operationName prim ps (attempt + 1)
      (r.1, .osCall prim ps :: .retryNotify operationName attempt :: r.2)
    else
      (.error e, [.osCall prim ps])
termination_by maxRetries - attempt
decreasing_by omega

/-- `executeWithRetry(operation, operationName)`: submit to the limiter
(consuming a slot) and run the attempt loop from attempt 0. -/
def executeWithRetry (config : ThrottleConfig) (op : Nat → Except JsError T)
    (operationName : String) (prim : String) (ps : List String) :
    Except JsError T × List Effect :=
  let r := retryLoop config.maxRetries op operationName prim ps 0
  (r.1, .slotConsumed :: r.2)

/-- `access(filePath, mode)`: validate, then `fs.access` under the limiter
and retry engine. `osAccess` is the oracle for the underlying primitive,
taking the path it is invoked with, the mode, and the attempt index. -/
def access (validate : String → Except JsError String) (config : ThrottleConfig)
    (osAccess : String → Option Nat → Nat → Except JsError Unit)
    (filePath : String) (mode : Option Nat) : Except JsError Unit × List Effect :=
  match validate filePath with
  | .error e => (.error e, [.validate filePath])
  | .ok validatedPath =>
    let r := executeWithRetry config (fun attempt => osAccess validatedPath mode attempt)
      ("access(" ++ filePath ++ ")") "access" [validatedPath]
    (r.1, .validate filePath :: r.2)

/-- `readFile(filePath, encoding)`: validate, then `fs.readFile` (with the
encoding when one was given) under the limiter and retry engine. -/
def readFile (validate : String → Except JsError String) (config : ThrottleConfig)
    (osReadFile : String → Option String → Nat → Except JsError α)
    (filePath : String) (encoding : Option String) : Except JsError α × List Effect :=
  match validate filePath with
  | .error e => (.error e, [.validate filePath])
  | .ok validatedPath =>
    let r := executeWithRetry config
      (fun attempt =>
        match encoding with
        | some enc => osReadFile validatedPath (some enc) attempt
        | none => osReadFile validatedPath none attempt)
      ("readFile(" ++ filePath ++ ")") "readFile" [validatedPath]
    (r.1, .validate filePath :: r.2)

/-- `writeFile(filePath, data, encoding)`. -/
def writeFile (validate : String → Except JsError String) (config : ThrottleConfig)
    (osWriteFile : String → α → Option String → Nat → Except JsError Unit)
    (filePath : String) (data : α) (encoding : Option String) :
    Except JsError Unit × List Effect :=
  match validate filePath with
  | .error e => (.error e, [.validate filePath])
  | .ok validatedPath =>
    let r := executeWithRetry config
      (fun attempt => osWriteFile validatedPath data encoding attempt)
      ("writeFile(" ++ filePath ++ ")") "writeFile" [validatedPath]
    (r.1, .validate filePath :: r.2)

/-- `mkdir(dirPath, options)`. -/
def mkdir (validate : String → Except JsError String) (config : ThrottleConfig)
    (osMkdir : String → α → Nat → Except JsError (Option String))
    (dirPath : String) (options : α) : Except JsError (Option String) × List Effect :=
  match validate dirPath with
  | .error e => (.error e, [.validate dirPath])
  | .ok validatedPath =>
    let r := executeWithRetry config (fun attempt => osMkdir validatedPath options attempt)
      ("mkdir(" ++ dirPath ++ ")") "mkdir" [validatedPath]
    (r.1, .validate dirPath :: r.2)

/-- `readdir(dirPath, options)`: the boolean is the `withFileTypes` option;
the branch mirrors the source's `options?.withFileTypes === true` test. -/
def readdir (validate : String → Except JsError String) (config : ThrottleConfig)
    (osReaddir : String → Bool → Nat → Except JsError α)
    (dirPath : String) (withFileTypes : Option Bool) : Except JsError α × List Effect :=
  match validate dirPath with
  | .error e => (.error e, [.validate dirPath])
  | .ok validatedPath =>
    let r := executeWithRetry config
      (fun attempt =>
        if withFileTypes = some true then osReaddir validatedPath true attempt
        else osReaddir validatedPath false attempt)
      ("readdir(" ++ dirPath ++ ")") "readdir" [validatedPath]
    (r.1, .validate dirPath :: r.2)

/-- `stat(filePath)`. -/
def stat (validate : String → Except JsError String) (config : ThrottleConfig)
    (osStat : String → Nat → Except JsError α)
    (filePath : String) : Except JsError α × List Effect :=
  match validate filePath with
  | .error e => (.error e, [.validate filePath])
  | .ok validatedPath =>
    let r := executeWithRetry config (fun attempt => osStat validatedPath attempt)
      ("stat(" ++ filePath ++ ")") "stat" [validatedPath]
    (r.1, .validate filePath :: r.2)

/-- `rm(filePath, options)`. -/
def rm (validate : String → Except JsError String) (config : ThrottleConfig)
    (osRm : String → α → Nat → Except JsError Unit)
    (filePath : String) (options : α) : Except JsError Unit × List Effect :=
  match validate filePath with
  | .error e => (.error e, [.validate filePath])
  | .ok validatedPath =>
    let r := executeWithRetry config (fun attempt => osRm validatedPath options attempt)
      ("rm(" ++ filePath ++ ")") "rm" [validatedPath]
    (r.1, .validate filePath :: r.2)

/-- `unlink(filePath)`. -/
def unlink (validate : String → Except JsError String) (config : ThrottleConfig)
    (osUnlink : String → Nat → Except JsError Unit)
    (filePath : String) : Except JsError Unit × List Effect :=
  match validate filePath with
  | .error e => (.error e, [.validate filePath])
  | .ok validatedPath =>
    let r := executeWithRetry config (fun attempt => osUnlink validatedPath attempt)
      ("unlink(" ++ filePath ++ ")") "unlink" [validatedPath]
    (r.1, .validate filePath :: r.2)

/-- `copyFile(src, dest, mode)`: validates both paths, in source order,
before submitting the copy. -/
def copyFile (validate : String → Except JsError String) (config : ThrottleConfig)
    (osCopyFile : String → String → Option Nat → Nat → Except JsError Unit)
    (src : String) (dest : String) (mode : Option Nat) :
    Except JsError Unit × List Effect :=
  match validate src with
  | .error e => (.error e, [.validate src])
  | .ok validatedSrc =>
    match validate dest with
    | .error e => (.error e, [.validate src, .validate dest])
    | .ok validatedDest =>
      let r := executeWithRetry config
        (fun attempt => osCopyFile validatedSrc validatedDest mode attempt)
        ("copyFile(" ++ src ++ ", " ++ dest ++ ")") "copyFile"
        [validatedSrc, validatedDest]
      (r.1, .validate src :: .validate dest :: r.2)

/-- `appendFile(filePath, data, encoding)`. -/
def appendFile (validate : String → Except JsError String) (config : ThrottleConfig)
    (osAppendFile : String → α → Option String → Nat → Except JsError Unit)
    (filePath : String) (data : α) (encoding : Option String) :
    Except JsError Unit × List Effect :=
  match validate filePath with
  | .error e => (.error e, [.validate filePath])
  | .ok validatedPath =>
    let r := executeWithRetry config
      (fun attempt => osAppendFile validatedPath data encoding attempt)
      ("appendFile(" ++ filePath ++ ")") "appendFile" [validatedPath]
    (r.1, .validate filePath :: r.2)

/-- `rename(oldPath, newPath)`: validates both paths, in source order,
before submitting the rename. -/
def rename (validate : String → Except JsError String) (config : ThrottleConfig)
    (osRename : String → String → Nat → Except JsError Unit)
    (oldPath : String) (newPath : String) : Except JsError Unit × List Effect :=
  match validate oldPath with
  | .error e => (.error e, [.validate oldPath])
  | .ok validatedOldPath =>
    match validate newPath with
    | .error e => (.error e, [.validate oldPath, .validate newPath])
    | .ok validatedNewPath =>
      let r := executeWithRetry config
        (fun attempt => osRename validatedOldPath validatedNewPath attempt)
        ("rename(" ++ oldPath ++ ", " ++ newPath ++ ")") "rename"
        [validatedOldPath, validatedNewPath]
      (r.1, .validate oldPath :: .validate newPath :: r.2)

/-- `lstat(filePath)`. -/
def lstat (validate : String → Except JsError String) (config : ThrottleConfig)
    (osLstat : String → Nat → Except JsError α)
    (filePath : String) : Except JsError α × List Effect :=
  match validate filePath with
  | .error e => (.error e, [.validate filePath])
  | .ok validatedPath =>
    let r := executeWithRetry config (fun attempt => osLstat validatedPath attempt)
      ("lstat(" ++ filePath ++ ")") "lstat" [validatedPath]
    (r.1, .validate filePath :: r.2)

/-- `joinPath(...pathSegments)`: `path.join` applied to the segments.
`pathJoin` models the external Node `path.join`; the ambient module state
(the gate and the live config) is passed in, exactly as it is in scope for
the source function, which uses neither. -/
def joinPath (pathJoin : List String → String)
    (validate : String → Except JsError String) (config : ThrottleConfig)
    (pathSegments : List String) : String × List Effect :=
  (pathJoin pathSegments, [])

/-- `resolvePath(...pathSegments)`: `path.resolve` applied to the segments;
like `joinPath`, it touches neither the gate nor the limiter state. -/
def resolvePath (pathResolve : List String → String)
    (validate : String → Except JsError String) (config : ThrottleConfig)
    (pathSegments : List String) : String × List Effect :=
  (pathResolve pathSegments, [])

/-! ### Configuration manager lemmas -/

/-- A successful `configureThrottling` always spread-merges the patch into
the live config. -/
theorem configure_ok_config (s : FSState) (p : ConfigPatch)
    (h : (configureThrottling s p).1 = Except.ok ()) :
    (configureThrottling s p).2.config = mergeConfig s.config p := by
  unfold configureThrottling at *
  cases hm : p.maxConcurrency with
  | none => simp [hm]
  | some n =>
    simp only [hm] at h ⊢
    by_cases h1 : n = s.config.maxConcurrency
    · simp [h1]
    · by_cases h2 : 0 < s.fsLimit.activeCount ∨ 0 < s.fsLimit.pendingCount
      · simp [h1, h2] at h
      · simp [h1, h2]

/-- C4: `configureThrottling` fails (with the reconfiguration-conflict
error) iff the patch supplies a `maxConcurrency` different from the current
one while operations are active or pending; on failure the module state —
config and limiter — is left untouched; and a patch that omits
`maxConcurrency` or supplies the current value never raises this error. -/
theorem configureThrottling_conflict (s : FSState) (p : ConfigPatch) :
    ((∃ msg, (configureThrottling s p).1 = Except.error msg) ↔
      ∃ n, p.maxConcurrency = some n ∧ n ≠ s.config.maxConcurrency ∧
        (0 < getActiveOperations s ∨ 0 < getPendingOperations s)) ∧
    (∀ msg, (configureThrottling s p).1 = Except.error msg →
      (configureThrottling s p).2 = s) ∧
    (p.maxConcurrency = none → (configureThrottling s p).1 = Except.ok ()) ∧
    (p.maxConcurrency = some s.config.maxConcurrency →
      (configureThrottling s p).1 = Except.ok ()) := by
  unfold configureThrottling getActiveOperations getPendingOperations
  cases hm : p.maxConcurrency with
  | none => simp
  | some n =>
    by_cases h1 : n = s.config.maxConcurrency
    · simp [h1]
    · by_cases h2 : 0 < s.fsLimit.activeCount ∨ 0 < s.fsLimit.pendingCount
      · simp [h1, h2]
      · simp [h1, h2]

/-- Concrete run of C4: with one active operation, changing
`maxConcurrency` from 100 to 50 leaves the state untouched, while supplying
the current value 100 succeeds even though an operation is active. -/
theorem configureThrottling_conflict_witness :
    (configureThrottling
        { config := DEFAULT_CONFIG,
          fsLimit := { capacity := 100, activeCount := 1, pendingCount := 0 } }
        { maxConcurrency := some 50 }).2 =
      { config := DEFAULT_CONFIG,
        fsLimit := { capacity := 100, activeCount := 1, pendingCount := 0 } } ∧
    (configureThrottling
        { config := DEFAULT_CONFIG,
          fsLimit := { capacity := 100, activeCount := 1, pendingCount := 0 } }
        { maxConcurrency := some 100 }).1 = Except.ok () := by
  constructor
  · exact (configureThrottling_conflict
      { config := DEFAULT_CONFIG,
        fsLimit := { capacity := 100, activeCount := 1, pendingCount := 0 } }
      { maxConcurrency := some 50 }).2.1 _ rfl
  · exact (configureThrottling_conflict
      { config := DEFAULT_CONFIG,
        fsLimit := { capacity := 100, activeCount := 1, pendingCount := 0 } }
      { maxConcurrency := some 100 }).2.2.2 rfl

/-- C6: partial-merge law — a successful `configureThrottling` followed by
`getThrottlingConfig` shows each supplied field overwritten with its
supplied value and each unsupplied field unchanged from its prior value. -/
theorem configureThrottling_partial_merge (s : FSState) (p : ConfigPatch)
    (h : (configureThrottling s p).1 = Except.ok ()) :
    ((p.maxConcurrency = none →
        (getThrottlingConfig (configureThrottling s p).2).maxConcurrency =
          s.config.maxConcurrency) ∧
      ∀ v, p.maxConcurrency = some v →
        (getThrottlingConfig (configureThrottling s p).2).maxConcurrency = v) ∧
    ((p.maxRetries = none →
        (getThrottlingConfig (configureThrottling s p).2).maxRetries =
          s.config.maxRetries) ∧
      ∀ v, p.maxRetries = some v →
        (getThrottlingConfig (configureThrottling s p).2).maxRetries = v) ∧
    ((p.baseDelay = none →
        (getThrottlingConfig (configureThrottling s p).2).baseDelay =
          s.config.baseDelay) ∧
      ∀ v, p.baseDelay = some v →
        (getThrottlingConfig (configureThrottling s p).2).baseDelay = v) ∧
    ((p.maxDelay = none →
        (getThrottlingConfig (configureThrottling s p).2).maxDelay =
          s.config.maxDelay) ∧
      ∀ v, p.maxDelay = some v →
        (getThrottlingConfig (configureThrottling s p).2).maxDelay = v) := by
  have hc := configure_ok_config s p h
  simp only [getThrottlingConfig, hc, mergeConfig]
  refine ⟨⟨?_, ?_⟩, ⟨?_, ?_⟩, ⟨?_, ?_⟩, ⟨?_, ?_⟩⟩ <;>
    first
      | (intro hx; simp [hx])
      | (intro v hx; simp [hx])

/-- Concrete run of C6: `configure(\x7b maxRetries: 5 \x7d)` on the initial
state yields `maxRetries = 5` with `maxConcurrency`, `baseDelay` and
`maxDelay` unchanged. -/
theorem configureThrottling_partial_merge_witness :
    (getThrottlingConfig (configureThrottling initialState { maxRetries := some 5 }).2).maxRetries = 5 ∧
    (getThrottlingConfig (configureThrottling initialState { maxRetries := some 5 }).2).maxConcurrency = initialState.config.maxConcurrency ∧
    (getThrottlingConfig (configureThrottling initialState { maxRetries := some 5 }).2).baseDelay = initialState.config.baseDelay ∧
    (getThrottlingConfig (configureThrottling initialState { maxRetries := some 5 }).2).maxDelay = initialState.config.maxDelay := by
  have h := configureThrottling_partial_merge initialState { maxRetries := some 5 } rfl
  exact ⟨h.2.1.2 5 rfl, h.1.1 rfl, h.2.2.1.1 rfl, h.2.2.2.1 rfl⟩

/-- C5: the computed backoff delay equals
`min(baseDelay * 2 ^ attempt + jitter, maxDelay)`, and for jitter in
`[0, baseDelay)` it lies between `baseDelay * 2 ^ attempt` and
`baseDelay * 2 ^ attempt + baseDelay`, both clamped to at most `maxDelay`. -/
theorem calculateDelay_bounds (config : ThrottleConfig) (attempt : Nat) (jitter : ℚ)
    (hj0 : 0 ≤ jitter) (hj1 : jitter < (config.baseDelay : ℚ))
    (hb : 0 < config.baseDelay) (hbm : config.baseDelay ≤ config.maxDelay) :
    calculateDelay config attempt jitter =
      min ((config.baseDelay : ℚ) * 2 ^ attempt + jitter) (config.maxDelay : ℚ) ∧
    min ((config.baseDelay : ℚ) * 2 ^ attempt) (config.maxDelay : ℚ) ≤
      calculateDelay config attempt jitter ∧
    calculateDelay config attempt jitter ≤
      min ((config.baseDelay : ℚ) * 2 ^ attempt + (config.baseDelay : ℚ))
        (config.maxDelay : ℚ) := by
  refine ⟨rfl, ?_, ?_⟩
  · exact min_le_min (by linarith) le_rfl
  · exact min_le_min (by linarith) le_rfl

/-- Concrete run of C5: with the default config, attempt 2 and jitter 1/2,
the delay lies in the clamped band. -/
theorem calculateDelay_bounds_witness :
    min ((DEFAULT_CONFIG.baseDelay : ℚ) * 2 ^ 2) (DEFAULT_CONFIG.maxDelay : ℚ) ≤
      calculateDelay DEFAULT_CONFIG 2 (1 / 2) ∧
    calculateDelay DEFAULT_CONFIG 2 (1 / 2) ≤
      min ((DEFAULT_CONFIG.baseDelay : ℚ) * 2 ^ 2 + (DEFAULT_CONFIG.baseDelay : ℚ))
        (DEFAULT_CONFIG.maxDelay : ℚ) := by
  have h := calculateDelay_bounds DEFAULT_CONFIG 2 (1 / 2) (by norm_num)
    (by norm_num [DEFAULT_CONFIG]) (by decide) (by decide)
  exact ⟨h.2.1, h.2.2⟩

/-- C9: `joinPath` and `resolvePath` are pure functions of their segments —
their result is unchanged under any Access-Gate validator and any live
config, and their effect trace is empty: no validation, no slot
consumption, no OS call, no retry notification. -/
theorem pathHelpers_pure (pathJoin pathResolve : List String → String)
    (v₁ v₂ : String → Except JsError String) (c₁ c₂ : ThrottleConfig)
    (segs : List String) :
    joinPath pathJoin v₁ c₁ segs = joinPath pathJoin v₂ c₂ segs ∧
    resolvePath pathResolve v₁ c₁ segs = resolvePath pathResolve v₂ c₂ segs ∧
    (joinPath pathJoin v₁ c₁ segs).1 = pathJoin segs ∧
    (resolvePath pathResolve v₁ c₁ segs).1 = pathResolve segs ∧
    (joinPath pathJoin v₁ c₁ segs).2 = [] ∧
    (resolvePath pathResolve v₁ c₁ segs).2 = [] :=
  ⟨rfl, rfl, rfl, rfl, rfl, rfl⟩

/-! ### Data-model invariant (C7) -/

/-- Counterexample to C7 as stated: from the initial state, the single call
`configureThrottling(\x7b baseDelay: 10000 \x7d)` succeeds (no validation is
performed) and leaves a live config with `baseDelay = 10000 > 5000 = maxDelay`,
violating the claimed invariant `baseDelay ≤ maxDelay`. -/
theorem config_delay_invariant_cex :
    (configureThrottling initialState { baseDelay := some 10000 }).1 = Except.ok () ∧
    ¬((configureThrottling initialState { baseDelay := some 10000 }).2.config.baseDelay ≤
      (configureThrottling initialState { baseDelay := some 10000 }).2.config.maxDelay) :=
  ⟨rfl, by decide⟩

/-- C7 (amended): the defaults satisfy `baseDelay ≤ maxDelay`, and any
`configureThrottling` call that supplies neither `baseDelay` nor `maxDelay`
preserves the invariant; `configureThrottling` performs no validation, so a
call supplying those fields can break it. -/
theorem config_delay_invariant_amended :
    initialState.config.baseDelay ≤ initialState.config.maxDelay ∧
    ∀ (s : FSState) (p : ConfigPatch),
      s.config.baseDelay ≤ s.config.maxDelay →
      p.baseDelay = none → p.maxDelay = none →
      (configureThrottling s p).2.config.baseDelay ≤
        (configureThrottling s p).2.config.maxDelay := by
  refine ⟨by decide, ?_⟩
  intro s p hs hb hd
  unfold configureThrottling
  cases hm : p.maxConcurrency with
  | none => simpa [mergeConfig, hb, hd] using hs
  | some n =>
    by_cases h1 : n = s.config.maxConcurrency
    · simpa [h1, mergeConfig, hb, hd] using hs
    · by_cases h2 : 0 < s.fsLimit.activeCount ∨ 0 < s.fsLimit.pendingCount
      · simpa [h1, h2] using hs
      · simpa [h1, h2, mergeConfig, hb, hd] using hs

/-- Concrete run of the amended C7: `configure(\x7b maxRetries: 7 \x7d)` from
the initial state keeps `baseDelay ≤ maxDelay`. -/
theorem config_delay_invariant_amended_witness :
    (configureThrottling initialState { maxRetries := some 7 }).2.config.baseDelay ≤
      (configureThrottling initialState { maxRetries := some 7 }).2.config.maxDelay :=
  config_delay_invariant_amended.2 initialState { maxRetries := some 7 }
    (by decide) rfl rfl

/-! ### Snapshot-copy semantics of getThrottlingConfig (C8) -/

namespace HeapModel

/-- A heap of JavaScript config objects: `cells` are the allocated objects,
`liveIdx` is the address of the module's live `config` object. -/
structure Heap where
  cells : List ThrottleConfig
  liveIdx : Nat

/-- The live configuration the module observes. -/
def liveConfig (h : Heap) : ThrottleConfig := (h.cells[h.liveIdx]?).getD DEFAULT_CONFIG

/-- `getThrottlingConfig()` under explicit heap semantics: the spread
`\x7b ...config \x7d` allocates a fresh object (at a fresh address) whose
fields are copied from the live config, and returns that address. -/
def getThrottlingConfigH (h : Heap) : Nat × Heap :=
  (h.cells.length, { cells := h.cells ++ [liveConfig h], liveIdx := h.liveIdx })

/-- A caller mutating the object at address `i` (any field update `c`). -/
def writeCell (h : Heap) (i : Nat) (c : ThrottleConfig) : Heap :=
  { cells := h.cells.set i c, liveIdx := h.liveIdx }

end HeapModel

/-- C8: `getThrottlingConfig` returns a snapshot copy — the returned object
holds the live configuration's value, and overwriting the returned object
with any value leaves the live configuration observed afterwards unchanged. -/
theorem getThrottlingConfig_returns_copy (h : HeapModel.Heap)
    (hlive : h.liveIdx < h.cells.length) (c : ThrottleConfig) :
    ((HeapModel.getThrottlingConfigH h).2.cells[(HeapModel.getThrottlingConfigH h).1]?) =
      some (HeapModel.liveConfig h) ∧
    HeapModel.liveConfig
        (HeapModel.writeCell (HeapModel.getThrottlingConfigH h).2
          (HeapModel.getThrottlingConfigH h).1 c) =
      HeapModel.liveConfig h := by
  have hne : h.cells.length ≠ h.liveIdx := Nat.ne_of_gt hlive
  constructor
  · simp [HeapModel.getThrottlingConfigH, List.getElem?_concat_length]
  · simp [HeapModel.getThrottlingConfigH, HeapModel.writeCell, HeapModel.liveConfig,
      List.getElem?_set_ne hne, List.getElem?_append_left hlive]

/-- Concrete run of C8: a one-cell heap whose live config is the default;
after taking a snapshot and overwriting it with a different config, the live
config is still the default. -/
theorem getThrottlingConfig_returns_copy_witness :
    HeapModel.liveConfig
        (HeapModel.writeCell
          (HeapModel.getThrottlingConfigH { cells := [DEFAULT_CONFIG], liveIdx := 0 }).2
          (HeapModel.getThrottlingConfigH { cells := [DEFAULT_CONFIG], liveIdx := 0 }).1
          { maxConcurrency := 1, maxRetries := 0, baseDelay := 1, maxDelay := 1 }) =
      HeapModel.liveConfig { cells := [DEFAULT_CONFIG], liveIdx := (0 : Nat) } :=
  (getThrottlingConfig_returns_copy { cells := [DEFAULT_CONFIG], liveIdx := 0 }
    (by decide) { maxConcurrency := 1, maxRetries := 0, baseDelay := 1, maxDelay := 1 }).2

/-! ### Config/limiter consistency (C10) -/

/-- The module states reachable from initialisation by any sequence of
`configureThrottling` calls (successful or failed). -/
inductive ReachableState : FSState → Prop where
  | init : ReachableState initialState
  | configure (s : FSState) (p : ConfigPatch) :
      ReachableState s → ReachableState (configureThrottling s p).2

/-- C10: in the initial state and after every `configureThrottling` call,
the live limiter's capacity equals the live config's `maxConcurrency`. -/
theorem limiter_capacity_invariant (s : FSState) (h : ReachableState s) :
    s.fsLimit.capacity = s.config.maxConcurrency := by
  induction h with
  | init => rfl
  | configure s p _ ih =>
    unfold configureThrottling
    cases hm : p.maxConcurrency with
    | none => simpa [mergeConfig, hm] using ih
    | some n =>
      by_cases h1 : n = s.config.maxConcurrency
      · simpa [h1, mergeConfig, hm] using ih
      · by_cases h2 : 0 < s.fsLimit.activeCount ∨ 0 < s.fsLimit.pendingCount
        · simpa [h1, h2] using ih
        · simp [h1, h2, mergeConfig, hm, pLimit]

/-- Concrete run of C10: the invariant at the initial state. -/
theorem limiter_capacity_invariant_witness :
    initialState.fsLimit.capacity = initialState.config.maxConcurrency :=
  limiter_capacity_invariant initialState ReachableState.init

/-! ### Retry engine lemmas -/

/-- Unfolding: a successful attempt ends the loop. -/
theorem retryLoop_ok {T : Type} {op : Nat → Except JsError T} {attempt : Nat} {v : T}
    (maxRetries : Nat) (operationName prim : String) (ps : List String)
    (h : op attempt = Except.ok v) :
    retryLoop maxRetries op operationName prim ps attempt =
      (Except.ok v, [Effect.osCall prim ps]) := by
  rw [retryLoop]
  simp only [h]

/-- Unfolding: a non-retryable failure ends the loop with that error. -/
theorem retryLoop_stop {T : Type} {op : Nat → Except JsError T} {attempt : Nat} {e : JsError}
    (maxRetries : Nat) (operationName prim : String) (ps : List String)
    (h : op attempt = Except.error e)
    (h2 : ¬(isFileDescriptorError e = true ∧ attempt < maxRetries)) :
    retryLoop maxRetries op operationName prim ps attempt =
      (Except.error e, [Effect.osCall prim ps]) := by
  rw [retryLoop]
  simp only [h]
  rw [if_neg h2]

/-- Unfolding: a retryable failure notifies and continues at the next
attempt. -/
theorem retryLoop_retry {T : Type} {op : Nat → Except JsError T} {attempt : Nat} {e : JsError}
    (maxRetries : Nat) (operationName prim : String) (ps : List String)
    (h : op attempt = Except.error e)
    (hfd : isFileDescriptorError e = true) (hlt : attempt < maxRetries) :
    retryLoop maxRetries op operationName prim ps attempt =
      ((retryLoop maxRetries op operationName prim ps (attempt + 1)).1,
        Effect.osCall prim ps :: Effect.retryNotify operationName attempt ::
          (retryLoop maxRetries op operationName prim ps (attempt + 1)).2) := by
  rw [retryLoop]
  simp only [h]
  rw [if_pos ⟨hfd, hlt⟩]

theorem numAttempts_single (prim : String) (ps : List String) :
    numAttempts [Effect.osCall prim ps] = 1 := by
  simp [numAttempts, List.countP_cons, List.countP_nil, isOsCall]

theorem numAttempts_retry_trace (prim operationName : String) (ps : List String)
    (attempt : Nat) (tr : List Effect) :
    numAttempts (Effect.osCall prim ps :: Effect.retryNotify operationName attempt :: tr) =
      numAttempts tr + 1 := by
  simp [numAttempts, List.countP_cons, isOsCall]

theorem numAttempts_slot (tr : List Effect) :
    numAttempts (Effect.slotConsumed :: tr) = numAttempts tr := by
  simp [numAttempts, List.countP_cons, isOsCall]

theorem numNotifications_single (prim : String) (ps : List String) :
    numNotifications [Effect.osCall prim ps] = 0 := by
  simp [numNotifications, List.countP_cons, List.countP_nil, isRetryNotify]

theorem numNotifications_retry_trace (prim operationName : String) (ps : List String)
    (attempt : Nat) (tr : List Effect) :
    numNotifications
        (Effect.osCall prim ps :: Effect.retryNotify operationName attempt :: tr) =
      numNotifications tr + 1 := by
  simp [numNotifications, List.countP_cons, isRetryNotify, isOsCall]

theorem numNotifications_slot (tr : List Effect) :
    numNotifications (Effect.slotConsumed :: tr) = numNotifications tr := by
  simp [numNotifications, List.countP_cons, isRetryNotify]

/-- The loop always makes at least one attempt. -/
theorem retryLoop_attempts_pos {T : Type} (maxRetries : Nat) (op : Nat → Except JsError T)
    (operationName prim : String) (ps : List String) (attempt : Nat) :
    0 < numAttempts (retryLoop maxRetries op operationName prim ps attempt).2 := by
  cases hop : op attempt with
  | ok v =>
    rw [retryLoop_ok maxRetries operationName prim ps hop, numAttempts_single]
    omega
  | error e =>
    by_cases hc : isFileDescriptorError e = true ∧ attempt < maxRetries
    · rw [retryLoop_retry maxRetries operationName prim ps hop hc.1 hc.2,
        numAttempts_retry_trace]
      omega
    · rw [retryLoop_stop maxRetries operationName prim ps hop hc, numAttempts_single]
      omega

/-- Attempt `a` (counting from the loop start) is followed by attempt `a+1`
iff attempt `a` occurred, its index is below `maxRetries`, and the operation
failed there with a file-descriptor error. -/
theorem retryLoop_continue_iff {T : Type} (maxRetries : Nat) (op : Nat → Except JsError T)
    (operationName prim : String) (ps : List String) :
    ∀ (k attempt a : Nat), maxRetries - attempt = k →
      (a + 1 < numAttempts (retryLoop maxRetries op operationName prim ps attempt).2 ↔
        (a < numAttempts (retryLoop maxRetries op operationName prim ps attempt).2 ∧
          attempt + a < maxRetries ∧
          ∃ e, op (attempt + a) = Except.error e ∧ isFileDescriptorError e = true)) := by
  intro k
  induction k with
  | zero =>
    intro attempt a hk
    have hma : maxRetries ≤ attempt := by omega
    have h1 : numAttempts (retryLoop maxRetries op operationName prim ps attempt).2 = 1 := by
      cases hop : op attempt with
      | ok v => rw [retryLoop_ok maxRetries operationName prim ps hop, numAttempts_single]
      | error e =>
        rw [retryLoop_stop maxRetries operationName prim ps hop
          (fun hc => absurd hc.2 (by omega)), numAttempts_single]
    rw [h1]
    constructor
    · intro h
      exact absurd h (by omega)
    · rintro ⟨-, h2, -⟩
      exact absurd h2 (by omega)
  | succ k ih =>
    intro attempt a hk
    have hlt : attempt < maxRetries := by omega
    cases hop : op attempt with
    | ok v =>
      rw [retryLoop_ok maxRetries operationName prim ps hop, numAttempts_single]
      constructor
      · intro h
        exact absurd h (by omega)
      · rintro ⟨h1, -, e, he, -⟩
        have ha : a = 0 := by omega
        rw [ha, Nat.add_zero, hop] at he
        cases he
    | error e =>
      by_cases hfd : isFileDescriptorError e = true
      · rw [retryLoop_retry maxRetries operationName prim ps hop hfd hlt,
          numAttempts_retry_trace]
        cases a with
        | zero =>
          have hpos := retryLoop_attempts_pos maxRetries op operationName prim ps (attempt + 1)
          constructor
          · intro _
            exact ⟨by omega, by omega, e, by rw [Nat.add_zero]; exact hop, hfd⟩
          · intro _
            omega
        | succ b =>
          have hidx : attempt + 1 + b = attempt + (b + 1) := by omega
          have hih := ih (attempt + 1) b (by omega)
          rw [hidx] at hih
          constructor
          · intro h
            obtain ⟨h1, h2, e', he', hfd'⟩ := hih.mp (by omega)
            exact ⟨by omega, h2, e', he', hfd'⟩
          · rintro ⟨h1, h2, e', he', hfd'⟩
            have := hih.mpr ⟨by omega, h2, e', he', hfd'⟩
            omega
      · rw [retryLoop_stop maxRetries operationName prim ps hop
          (fun hc => absurd hc.1 hfd), numAttempts_single]
        constructor
        · intro h
          exact absurd h (by omega)
        · rintro ⟨h1, -, e', he', hfd'⟩
          have ha : a = 0 := by omega
          rw [ha, Nat.add_zero, hop] at he'
          cases he'
          exact absurd hfd' hfd

/-- Each retry emits exactly one notification: notifications + 1 =
attempts, always. -/
theorem retryLoop_notifications {T : Type} (maxRetries : Nat) (op : Nat → Except JsError T)
    (operationName prim : String) (ps : List String) :
    ∀ (k attempt : Nat), maxRetries - attempt = k →
      numNotifications (retryLoop maxRetries op operationName prim ps attempt).2 + 1 =
        numAttempts (retryLoop maxRetries op operationName prim ps attempt).2 := by
  intro k
  induction k with
  | zero =>
    intro attempt hk
    cases hop : op attempt with
    | ok v =>
      rw [retryLoop_ok maxRetries operationName prim ps hop,
        numAttempts_single, numNotifications_single]
    | error e =>
      rw [retryLoop_stop maxRetries operationName prim ps hop
        (fun hc => absurd hc.2 (by omega)), numAttempts_single, numNotifications_single]
  | succ k ih =>
    intro attempt hk
    cases hop : op attempt with
    | ok v =>
      rw [retryLoop_ok maxRetries operationName prim ps hop,
        numAttempts_single, numNotifications_single]
    | error e =>
      by_cases hfd : isFileDescriptorError e = true
      · rw [retryLoop_retry maxRetries operationName prim ps hop hfd (by omega),
          numAttempts_retry_trace, numNotifications_retry_trace]
        have := ih (attempt + 1) (by omega)
        omega
      · rw [retryLoop_stop maxRetries operationName prim ps hop
          (fun hc => absurd hc.1 hfd), numAttempts_single, numNotifications_single]

/-- If every attempt up to `maxRetries` fails with a descriptor error, the
loop from `attempt` fails with the final attempt's error after
`maxRetries - attempt + 1` attempts and `maxRetries - attempt`
notifications. -/
theorem retryLoop_allFD {T : Type} (maxRetries : Nat) (op : Nat → Except JsError T)
    (errs : Nat → JsError) (operationName prim : String) (ps : List String)
    (hall : ∀ a, a ≤ maxRetries →
      op a = Except.error (errs a) ∧ isFileDescriptorError (errs a) = true) :
    ∀ (k attempt : Nat), maxRetries - attempt = k → attempt ≤ maxRetries →
      (retryLoop maxRetries op operationName prim ps attempt).1 =
        Except.error (errs maxRetries) ∧
      numAttempts (retryLoop maxRetries op operationName prim ps attempt).2 =
        maxRetries - attempt + 1 ∧
      numNotifications (retryLoop maxRetries op operationName prim ps attempt).2 =
        maxRetries - attempt := by
  intro k
  induction k with
  | zero =>
    intro attempt hk hle
    have heq : attempt = maxRetries := by omega
    obtain ⟨he, hfd⟩ := hall attempt hle
    rw [retryLoop_stop maxRetries operationName prim ps he
      (fun hc => absurd hc.2 (by omega)), numAttempts_single, numNotifications_single]
    exact ⟨by rw [heq], by omega, by omega⟩
  | succ k ih =>
    intro attempt hk hle
    have hlt : attempt < maxRetries := by omega
    obtain ⟨he, hfd⟩ := hall attempt (Nat.le_of_lt hlt)
    rw [retryLoop_retry maxRetries operationName prim ps he hfd hlt,
      numAttempts_retry_trace, numNotifications_retry_trace]
    obtain ⟨ih1, ih2, ih3⟩ := ih (attempt + 1) (by omega) (by omega)
    exact ⟨ih1, by omega, by omega⟩

/-- C2: in a run of the retry engine, a failed attempt `a` is followed by a
further attempt iff its error is of the descriptor-exhaustion class and
`a < maxRetries`; each retry emits exactly one notification
(notifications + 1 = attempts); and any other error on the first attempt is
propagated immediately — one attempt, no notification, the final result is
that error — regardless of `maxRetries`. -/
theorem retry_classification {T : Type} (config : ThrottleConfig) (op : Nat → Except JsError T)
    (operationName prim : String) (ps : List String) :
    (∀ a, a + 1 < numAttempts (executeWithRetry config op operationName prim ps).2 ↔
      (a < numAttempts (executeWithRetry config op operationName prim ps).2 ∧
        a < config.maxRetries ∧
        ∃ e, op a = Except.error e ∧ isFileDescriptorError e = true)) ∧
    numNotifications (executeWithRetry config op operationName prim ps).2 + 1 =
      numAttempts (executeWithRetry config op operationName prim ps).2 ∧
    (∀ e, op 0 = Except.error e → isFileDescriptorError e = false →
      executeWithRetry config op operationName prim ps =
        (Except.error e, [Effect.slotConsumed, Effect.osCall prim ps])) := by
  have hA : (executeWithRetry config op operationName prim ps).2 =
      Effect.slotConsumed :: (retryLoop config.maxRetries op operationName prim ps 0).2 := rfl
  refine ⟨?_, ?_, ?_⟩
  · intro a
    rw [hA, numAttempts_slot]
    have h := retryLoop_continue_iff config.maxRetries op operationName prim ps
      (config.maxRetries - 0) 0 a rfl
    simpa using h
  · rw [hA, numAttempts_slot, numNotifications_slot]
    exact retryLoop_notifications config.maxRetries op operationName prim ps _ 0 rfl
  · intro e he hfd
    have h := retryLoop_stop config.maxRetries operationName prim ps he
      (fun hc => absurd hc.1 (by simp [hfd]))
    show ((retryLoop config.maxRetries op operationName prim ps 0).1,
      Effect.slotConsumed :: (retryLoop config.maxRetries op operationName prim ps 0).2) = _
    rw [h]

/-- A non-descriptor error (`EACCES`). -/
def eaccesErr : JsError := { code := some "EACCES" }

/-- A descriptor-exhaustion error (`EMFILE`). -/
def emfileErr : JsError := { code := some "EMFILE" }

theorem emfileErr_isFD : isFileDescriptorError emfileErr = true := by decide

/-- Concrete run of C2: an `EACCES` failure on the first attempt of a
mediated `stat` is propagated at once — one OS call, no retry
notification — under the default config with `maxRetries = 3`. -/
theorem retry_classification_witness :
    executeWithRetry DEFAULT_CONFIG (fun _ => (Except.error eaccesErr : Except JsError Unit))
        "stat(/tmp/x)" "stat" ["/tmp/x"] =
      (Except.error eaccesErr, [Effect.slotConsumed, Effect.osCall "stat" ["/tmp/x"]]) :=
  (retry_classification DEFAULT_CONFIG (fun _ => (Except.error eaccesErr : Except JsError Unit))
    "stat(/tmp/x)" "stat" ["/tmp/x"]).2.2 eaccesErr rfl (by decide)

/-- C3: if the operation fails with a descriptor-exhaustion error on every
attempt `0..maxRetries`, the engine makes exactly `maxRetries + 1` attempts,
fails with the error observed on the final attempt, and emits exactly
`maxRetries` retry notifications. -/
theorem retry_exhaustion {T : Type} (config : ThrottleConfig) (op : Nat → Except JsError T)
    (errs : Nat → JsError) (operationName prim : String) (ps : List String)
    (hall : ∀ a, a ≤ config.maxRetries →
      op a = Except.error (errs a) ∧ isFileDescriptorError (errs a) = true) :
    (executeWithRetry config op operationName prim ps).1 =
      Except.error (errs config.maxRetries) ∧
    numAttempts (executeWithRetry config op operationName prim ps).2 =
      config.maxRetries + 1 ∧
    numNotifications (executeWithRetry config op operationName prim ps).2 =
      config.maxRetries := by
  obtain ⟨h1, h2, h3⟩ := retryLoop_allFD config.maxRetries op errs operationName prim ps hall
    (config.maxRetries - 0) 0 rfl (Nat.zero_le _)
  have hA : (executeWithRetry config op operationName prim ps).2 =
      Effect.slotConsumed :: (retryLoop config.maxRetries op operationName prim ps 0).2 := rfl
  have hB : (executeWithRetry config op operationName prim ps).1 =
      (retryLoop config.maxRetries op operationName prim ps 0).1 := rfl
  refine ⟨by rw [hB, h1], ?_, ?_⟩
  · rw [hA, numAttempts_slot, h2]
    omega
  · rw [hA, numNotifications_slot, h3]
    omega

/-- Concrete run of C3: `EMFILE` on every attempt of a mediated `readFile`
under the default config (`maxRetries = 3`) gives 4 attempts, 3
notifications, and the final `EMFILE` as the result. -/
theorem retry_exhaustion_witness :
    (executeWithRetry DEFAULT_CONFIG
        (fun _ => (Except.error emfileErr : Except JsError Unit))
        "readFile(/tmp/x)" "readFile" ["/tmp/x"]).1 = Except.error emfileErr ∧
    numAttempts (executeWithRetry DEFAULT_CONFIG
        (fun _ => (Except.error emfileErr : Except JsError Unit))
        "readFile(/tmp/x)" "readFile" ["/tmp/x"]).2 = 4 ∧
    numNotifications (executeWithRetry DEFAULT_CONFIG
        (fun _ => (Except.error emfileErr : Except JsError Unit))
        "readFile(/tmp/x)" "readFile" ["/tmp/x"]).2 = 3 :=
  retry_exhaustion DEFAULT_CONFIG (fun _ => (Except.error emfileErr : Except JsError Unit))
    (fun _ => emfileErr) "readFile(/tmp/x)" "readFile" ["/tmp/x"]
    (fun a ha => ⟨rfl, emfileErr_isFD⟩)

/-! ### Access-gate contract (C1) -/

/-- Every OS call made by the attempt loop uses exactly the path list it was
given. -/
theorem retryLoop_osCalls {T : Type} (maxRetries : Nat) (op : Nat → Except JsError T)
    (operationName prim : String) (ps : List String) :
    ∀ (k attempt : Nat), maxRetries - attempt = k →
      osCallsUseOnly (retryLoop maxRetries op operationName prim ps attempt).2 ps = true := by
  intro k
  induction k with
  | zero =>
    intro attempt hk
    cases hop : op attempt with
    | ok v =>
      rw [retryLoop_ok maxRetries operationName prim ps hop]
      simp [osCallsUseOnly]
    | error e =>
      rw [retryLoop_stop maxRetries operationName prim ps hop
        (fun hc => absurd hc.2 (by omega))]
      simp [osCallsUseOnly]
  | succ k ih =>
    intro attempt hk
    cases hop : op attempt with
    | ok v =>
      rw [retryLoop_ok maxRetries operationName prim ps hop]
      simp [osCallsUseOnly]
    | error e =>
      by_cases hfd : isFileDescriptorError e = true
      · rw [retryLoop_retry maxRetries operationName prim ps hop hfd (by omega)]
        have h := ih (attempt + 1) (by omega)
        simp only [osCallsUseOnly, List.all_cons] at h ⊢
        simp [h]
      · rw [retryLoop_stop maxRetries operationName prim ps hop
          (fun hc => absurd hc.1 hfd)]
        simp [osCallsUseOnly]

/-- Every OS call made by `executeWithRetry` uses exactly the path list it
was given. -/
theorem executeWithRetry_osCalls {T : Type} (config : ThrottleConfig)
    (op : Nat → Except JsError T) (operationName prim : String) (ps : List String) :
    osCallsUseOnly (executeWithRetry config op operationName prim ps).2 ps = true := by
  have h := retryLoop_osCalls config.maxRetries op operationName prim ps
    (config.maxRetries - 0) 0 rfl
  show osCallsUseOnly
    (Effect.slotConsumed :: (retryLoop config.maxRetries op operationName prim ps 0).2)
    ps = true
  simp only [osCallsUseOnly, List.all_cons] at h ⊢
  simp [h]

/-- The Access-Gate contract of a one-path mediated entry point on a raw
path `raw`: (a) the very first event is the validation of `raw` — before
any slot consumption or OS call; (b) a gate rejection aborts at once with
that error, with no slot consumed, no OS call, and no retry activity;
(c) on acceptance, every OS call uses exactly the validated path. -/
def gateContract {α : Type} (raw : String)
    (validate : String → Except JsError String)
    (out : Except JsError α × List Effect) : Prop :=
  out.2.head? = some (Effect.validate raw) ∧
  (∀ e, validate raw = Except.error e → out = (Except.error e, [Effect.validate raw])) ∧
  (∀ vp, validate raw = Except.ok vp → osCallsUseOnly out.2 [vp] = true)

/-- The Access-Gate contract of a two-path entry point: a rejection of the
first path aborts before the second is validated and before any I/O; a
rejection of the second aborts after both validations and before any I/O;
on acceptance of both, the two validations precede everything else and every
OS call uses exactly the two validated paths. -/
def gateContract2 {α : Type} (raw₁ raw₂ : String)
    (validate : String → Except JsError String)
    (out : Except JsError α × List Effect) : Prop :=
  (∀ e, validate raw₁ = Except.error e → out = (Except.error e, [Effect.validate raw₁])) ∧
  (∀ v₁ e, validate raw₁ = Except.ok v₁ → validate raw₂ = Except.error e →
    out = (Except.error e, [Effect.validate raw₁, Effect.validate raw₂])) ∧
  (∀ v₁ v₂, validate raw₁ = Except.ok v₁ → validate raw₂ = Except.ok v₂ →
    out.2.take 2 = [Effect.validate raw₁, Effect.validate raw₂] ∧
    osCallsUseOnly out.2 [v₁, v₂] = true)

/-- Any entry point of the validate-then-execute shape satisfies the
one-path gate contract. -/
theorem onePath_gate {α : Type} (validate : String → Except JsError String)
    (config : ThrottleConfig) (raw operationName prim : String)
    (opOf : String → Nat → Except JsError α) :
    gateContract raw validate
      (match validate raw with
        | Except.error e => (Except.error e, [Effect.validate raw])
        | Except.ok validatedPath =>
          let r := executeWithRetry config (opOf validatedPath) operationName prim
            [validatedPath]
          (r.1, Effect.validate raw :: r.2)) := by
  unfold gateContract
  cases hv : validate raw with
  | error e =>
    refine ⟨rfl, ?_, ?_⟩
    · intro e' he'
      cases he'
      rfl
    · intro vp hvp
      cases hvp
  | ok vp =>
    refine ⟨rfl, ?_, ?_⟩
    · intro e' he'
      cases he'
    · intro vp' hvp'
      cases hvp'
      have h := executeWithRetry_osCalls config (opOf vp) operationName prim [vp]
      simp only [osCallsUseOnly, List.all_cons] at h ⊢
      simp [h]

/-- Any entry point of the validate-both-then-execute shape satisfies the
two-path gate contract. -/
theorem twoPath_gate {α : Type} (validate : String → Except JsError String)
    (config : ThrottleConfig) (raw₁ raw₂ operationName prim : String)
    (opOf : String → String → Nat → Except JsError α) :
    gateContract2 raw₁ raw₂ validate
      (match validate raw₁ with
        | Except.error e => (Except.error e, [Effect.validate raw₁])
        | Except.ok v₁ =>
          match validate raw₂ with
          | Except.error e =>
            (Except.error e, [Effect.validate raw₁, Effect.validate raw₂])
          | Except.ok v₂ =>
            let r := executeWithRetry config (opOf v₁ v₂) operationName prim [v₁, v₂]
            (r.1, Effect.validate raw₁ :: Effect.validate raw₂ :: r.2)) := by
  unfold gateContract2
  cases hv1 : validate raw₁ with
  | error e =>
    refine ⟨?_, ?_, ?_⟩
    · intro e' he'
      cases he'
      rfl
    · intro v₁ e' hvp1 he'
      cases hvp1
    · intro v₁ v₂ hvp1 hvp2
      cases hvp1
  | ok v₁ =>
    cases hv2 : validate raw₂ with
    | error e2 =>
      refine ⟨?_, ?_, ?_⟩
      · intro e' he'
        cases he'
      · intro v₁' e' hvp1 he'
        cases hvp1
        cases he'
        rfl
      · intro v₁' v₂' hvp1 hvp2
        cases hvp2
    | ok v₂ =>
      refine ⟨?_, ?_, ?_⟩
      · intro e' he'
        cases he'
      · intro v₁' e' hvp1 he'
        cases he'
      · intro v₁' v₂' hvp1 hvp2
        cases hvp1
        cases hvp2
        refine ⟨rfl, ?_⟩
        have h := executeWithRetry_osCalls config (opOf v₁ v₂) operationName prim [v₁, v₂]
        simp only [osCallsUseOnly, List.all_cons] at h ⊢
        simp [h]

/-- C1: every I/O-performing entry point (access, readFile, writeFile,
mkdir, readdir, stat, lstat, rm, unlink, copyFile, appendFile, rename)
passes the caller-supplied path(s) through the Access Gate before any
system call or concurrency-slot consumption; the underlying OS primitive
is invoked only with the validated path(s); a validation rejection aborts
the operation with no slot consumed and no retry-engine activity; and
copyFile and rename validate both paths before any I/O and fail without
performing the operation if either path is rejected. -/
theorem operation_surface_gate
    {α β γ δ ε ζ η θ : Type}
    (validate : String → Except JsError String) (config : ThrottleConfig)
    (osAccess : String → Option Nat → Nat → Except JsError Unit)
    (osReadFile : String → Option String → Nat → Except JsError α)
    (osWriteFile : String → β → Option String → Nat → Except JsError Unit)
    (osMkdir : String → γ → Nat → Except JsError (Option String))
    (osReaddir : String → Bool → Nat → Except JsError δ)
    (osStat : String → Nat → Except JsError ε)
    (osRm : String → ζ → Nat → Except JsError Unit)
    (osUnlink : String → Nat → Except JsError Unit)
    (osCopyFile : String → String → Option Nat → Nat → Except JsError Unit)
    (osAppendFile : String → η → Option String → Nat → Except JsError Unit)
    (osRename : String → String → Nat → Except JsError Unit)
    (osLstat : String → Nat → Except JsError θ)
    (p src dest : String) (mode : Option Nat) (encoding : Option String)
    (data : β) (enc2 : Option String) (mkdirOpts : γ) (wft : Option Bool)
    (rmOpts : ζ) (cfMode : Option Nat) (appendData : η) (enc3 : Option String) :
    gateContract p validate (access validate config osAccess p mode) ∧
    gateContract p validate (readFile validate config osReadFile p encoding) ∧
    gateContract p validate (writeFile validate config osWriteFile p data enc2) ∧
    gateContract p validate (mkdir validate config osMkdir p mkdirOpts) ∧
    gateContract p validate (readdir validate config osReaddir p wft) ∧
    gateContract p validate (stat validate config osStat p) ∧
    gateContract p validate (rm validate config osRm p rmOpts) ∧
    gateContract p validate (unlink validate config osUnlink p) ∧
    gateContract p validate (appendFile validate config osAppendFile p appendData enc3) ∧
    gateContract p validate (lstat validate config osLstat p) ∧
    gateContract2 src dest validate (copyFile validate config osCopyFile src dest cfMode) ∧
    gateContract2 src dest validate (rename validate config osRename src dest) := by
  refine ⟨?_, ?_, ?_, ?_, ?_, ?_, ?_, ?_, ?_, ?_, ?_, ?_⟩
  · exact onePath_gate validate config p ("access(" ++ p ++ ")") "access"
      (fun vp attempt => osAccess vp mode attempt)
  · exact onePath_gate validate config p ("readFile(" ++ p ++ ")") "readFile"
      (fun vp attempt =>
        match encoding with
        | some enc => osReadFile vp (some enc) attempt
        | none => osReadFile vp none attempt)
  · exact onePath_gate validate config p ("writeFile(" ++ p ++ ")") "writeFile"
      (fun vp attempt => osWriteFile vp data enc2 attempt)
  · exact onePath_gate validate config p ("mkdir(" ++ p ++ ")") "mkdir"
      (fun vp attempt => osMkdir vp mkdirOpts attempt)
  · exact onePath_gate validate config p ("readdir(" ++ p ++ ")") "readdir"
      (fun vp attempt =>
        if wft = some true then osReaddir vp true attempt else osReaddir vp false attempt)
  · exact onePath_gate validate config p ("stat(" ++ p ++ ")") "stat"
      (fun vp attempt => osStat vp attempt)
  · exact onePath_gate validate config p ("rm(" ++ p ++ ")") "rm"
      (fun vp attempt => osRm vp rmOpts attempt)
  · exact onePath_gate validate config p ("unlink(" ++ p ++ ")") "unlink"
      (fun vp attempt => osUnlink vp attempt)
  · exact onePath_gate validate config p ("appendFile(" ++ p ++ ")") "appendFile"
      (fun vp attempt => osAppendFile vp appendData enc3 attempt)
  · exact onePath_gate validate config p ("lstat(" ++ p ++ ")") "lstat"
      (fun vp attempt => osLstat vp attempt)
  · exact twoPath_gate validate config src dest
      ("copyFile(" ++ src ++ ", " ++ dest ++ ")") "copyFile"
      (fun v₁ v₂ attempt => osCopyFile v₁ v₂ cfMode attempt)
  · exact twoPath_gate validate config src dest
      ("rename(" ++ src ++ ", " ++ dest ++ ")") "rename"
      (fun v₁ v₂ attempt => osRename v₁ v₂ attempt)

/-- A rejection produced by the Access Gate. -/
def accessDeniedErr : JsError := { code := none, msg := "Access denied" }

/-- A concrete Access-Gate stub: rejects the path "/bad", accepts any other
path unchanged. -/
def validateStub (p : String) : Except JsError String :=
  if p = "/bad" then Except.error accessDeniedErr else Except.ok p

/-- Concrete run of C1: `access` on a rejected path aborts with only the
validation in its trace (no slot, no OS call), and `copyFile` whose
destination is rejected fails after validating both paths and performs no
I/O. -/
theorem operation_surface_gate_witness :
    access validateStub DEFAULT_CONFIG
        (fun (_ : String) (_ : Option Nat) (_ : Nat) => (Except.ok () : Except JsError Unit))
        "/bad" none =
      (Except.error accessDeniedErr, [Effect.validate "/bad"]) ∧
    copyFile validateStub DEFAULT_CONFIG
        (fun (_ : String) (_ : String) (_ : Option Nat) (_ : Nat) =>
          (Except.ok () : Except JsError Unit))
        "/ok" "/bad" none =
      (Except.error accessDeniedErr,
        [Effect.validate "/ok", Effect.validate "/bad"]) := by
  have h := operation_surface_gate validateStub DEFAULT_CONFIG
    (fun (_ : String) (_ : Option Nat) (_ : Nat) => (Except.ok () : Except JsError Unit))
    (fun (_ : String) (_ : Option String) (_ : Nat) => (Except.ok () : Except JsError Unit))
    (fun (_ : String) (_ : Unit) (_ : Option String) (_ : Nat) =>
      (Except.ok () : Except JsError Unit))
    (fun (_ : String) (_ : Unit) (_ : Nat) => (Except.ok none : Except JsError (Option String)))
    (fun (_ : String) (_ : Bool) (_ : Nat) => (Except.ok () : Except JsError Unit))
    (fun (_ : String) (_ : Nat) => (Except.ok () : Except JsError Unit))
    (fun (_ : String) (_ : Unit) (_ : Nat) => (Except.ok () : Except JsError Unit))
    (fun (_ : String) (_ : Nat) => (Except.ok () : Except JsError Unit))
    (fun (_ : String) (_ : String) (_ : Option Nat) (_ : Nat) =>
      (Except.ok () : Except JsError Unit))
    (fun (_ : String) (_ : Unit) (_ : Option String) (_ : Nat) =>
      (Except.ok () : Except JsError Unit))
    (fun (_ : String) (_ : String) (_ : Nat) => (Except.ok () : Except JsError Unit))
    (fun (_ : String) (_ : Nat) => (Except.ok () : Except JsError Unit))
    "/bad" "/ok" "/bad" none none () none () none () none () none
  refine ⟨?_, ?_⟩
  · exact h.1.2.1 accessDeniedErr rfl
  · exact (h.2.2.2.2.2.2.2.2.2.2.1).2.1 "/ok" accessDeniedErr rfl rfl
